import Mathlib

/-!
Verification development for the Bech De scavenger-hunt application
(src/app.py).  The relational store (three tables: players, codes, scans)
is embedded as lists of rows; each `db_execute` call of the source opens
its own connection and commits on its own, so every call is modelled as
one atomic step on the store.  Machine strings are Lean `String`, Python
`str.strip()` is modelled by `pyStrip` below, Python truthiness of the
nullable integer column `used_by_player_id` by `truthy`.
-/

namespace BechDe

/-- Python str.strip() on the character list: drop whitespace from the
front, then from the back.  Uses Mathlib `List.rdropWhile`. -/
def stripChars (l : List Char) : List Char :=
  (l.dropWhile Char.isWhitespace).rdropWhile Char.isWhitespace

/-- Python str.strip() on strings. -/
def pyStrip (s : String) : String :=
  ⟨stripChars s.data⟩

/-- Python truthiness of a nullable integer column: None and 0 are falsy. -/
def truthy : Option Nat → Bool
  | none => false
  | some n => n ≠ 0

/-- Row of the players table (id SERIAL, name TEXT UNIQUE, password_hash
TEXT, score INTEGER DEFAULT 0). -/
structure PlayerRow where
  id : Nat
  name : String
  password_hash : String
  score : Nat
deriving DecidableEq, Repr

/-- Row of the codes table (id SERIAL, code TEXT UNIQUE, used_by_player_id
INTEGER nullable, used_at TEXT nullable; timestamps abstracted to Nat). -/
structure CodeRow where
  id : Nat
  code : String
  used_by_player_id : Option Nat
  used_at : Option Nat
deriving DecidableEq, Repr

/-- Row of the scans table (player_id, code_id, scanned_at); the unused
auto-increment id column is elided. -/
structure ScanRow where
  player_id : Nat
  code_id : Nat
  scanned_at : Nat
deriving DecidableEq, Repr

/-- The persisted store: the three tables, each in insertion order. -/
structure DB where
  players : List PlayerRow
  codes : List CodeRow
  scans : List ScanRow
deriving DecidableEq, Repr

/-- SELECT * FROM codes WHERE code = ? (fetchone): first row matching the
exact full-string comparison. -/
def findCode (c : String) (db : DB) : Option CodeRow :=
  db.codes.find? (fun r => r.code = c)

/-- UPDATE codes SET used_by_player_id = ?, used_at = ? WHERE id = ?
(commit).  Note: the WHERE clause matches on id only; there is no
condition on used_by_player_id being NULL. -/
def updateCodes (cid pid now : Nat) (db : DB) : DB :=
  { db with codes := db.codes.map (fun r =>
      if r.id = cid then { r with used_by_player_id := some pid, used_at := some now }
      else r) }

/-- INSERT INTO scans (player_id, code_id, scanned_at) VALUES (?,?,?)
(commit). -/
def insertScan (pid cid now : Nat) (db : DB) : DB :=
  { db with scans := db.scans ++ [⟨pid, cid, now⟩] }

/-- UPDATE players SET score = score + 1 WHERE id = ? (commit). -/
def bumpScore (pid : Nat) (db : DB) : DB :=
  { db with players := db.players.map (fun p =>
      if p.id = pid then { p with score := p.score + 1 } else p) }

/-- SELECT score FROM players WHERE id = ? (fetchone), with the source
fallback score = 0 when no row comes back. -/
def readScore (pid : Nat) (db : DB) : Nat :=
  match db.players.find? (fun p => p.id = pid) with
  | some r => r.score
  | none => 0

/-- The four JSON status strings the scan endpoint can return. -/
inductive Status where
  | ok
  | invalid
  | used
  | error
deriving DecidableEq, Repr

/-- The JSON body of an /api/scan response: status, message, and the score
field present only on success.  Emoji prefixes of the messages elided. -/
structure ScanResponse where
  status : Status
  message : String
  score : Option Nat
deriving DecidableEq, Repr

/-- Body of api_scan after the submitted code has been stripped: lookup,
claim-state check, then the three committed writes and the read-back. -/
def apiScanCore (pid : Nat) (scanned : String) (now : Nat) (db : DB) :
    ScanResponse × DB :=
  if scanned = "" then (⟨.error, "No code detected", none⟩, db)
  else
    match findCode scanned db with
    | none => (⟨.invalid, "Invalid code", none⟩, db)
    | some code_row =>
      if truthy code_row.used_by_player_id then
        (⟨.used, "Already claimed!", none⟩, db)
      else
        let db1 := updateCodes code_row.id pid now db
        let db2 := insertScan pid code_row.id now db1
        let db3 := bumpScore pid db2
        (⟨.ok, "You captured this code!", some (readScore pid db3)⟩, db3)

/-- The /api/scan handler on the no-exception path: strip the submitted
code, then run the core. -/
def api_scan (pid : Nat) (raw : String) (now : Nat) (db : DB) :
    ScanResponse × DB :=
  apiScanCore pid (pyStrip raw) now db

/-!
Failure model.  Each of the three writes is its own `db_execute` call on
its own connection with commit=True, so an exception raised by one write
leaves every earlier write durably committed.  The except-branch of
api_scan re-reads the code and answers used when the row is claimed, else
a 500 error.
-/

/-- Which db_execute call inside the try-block raises, if any. -/
inductive FailPoint where
  | noFail
  | atClaim
  | atInsert
  | atBump
deriving DecidableEq, Repr

/-- The except-branch of api_scan: re-read the code row and return used
when it is claimed, otherwise the 500 server error. -/
def scanHandler (scanned : String) (db : DB) : ScanResponse × DB :=
  match findCode scanned db with
  | some r2 =>
    if truthy r2.used_by_player_id then (⟨.used, "Already claimed!", none⟩, db)
    else (⟨.error, "Server error (try again)", none⟩, db)
  | none => (⟨.error, "Server error (try again)", none⟩, db)

/-- api_scan when the db_execute call at `fp` raises: writes before the
failing call are already committed; the failing call has no effect; the
except-branch then runs against the store as committed so far. -/
def apiScanFail (fp : FailPoint) (pid : Nat) (raw : String) (now : Nat)
    (db : DB) : ScanResponse × DB :=
  let scanned := pyStrip raw
  if scanned = "" then (⟨.error, "No code detected", none⟩, db)
  else
    match findCode scanned db with
    | none => (⟨.invalid, "Invalid code", none⟩, db)
    | some code_row =>
      if truthy code_row.used_by_player_id then
        (⟨.used, "Already claimed!", none⟩, db)
      else if fp = .atClaim then scanHandler scanned db
      else
        let db1 := updateCodes code_row.id pid now db
        if fp = .atInsert then scanHandler scanned db1
        else
          let db2 := insertScan pid code_row.id now db1
          if fp = .atBump then scanHandler scanned db2
          else
            let db3 := bumpScore pid db2
            (⟨.ok, "You captured this code!", some (readScore pid db3)⟩, db3)

/-!
Interleaving model.  Each request runs thread-per-request; a thread is its
session player id, its raw submission, its timestamp and a program
counter.  One atomic step is one db_execute call (the claim-state check
is pure local computation on the row the SELECT already returned, so it
belongs to the lookup step).
-/

/-- Program counter of one in-flight api_scan request. -/
inductive TPC where
  | lookup
  | doClaim (cid : Nat)
  | doInsert (cid : Nat)
  | doBump
  | doRead
  | finished (resp : ScanResponse)
deriving DecidableEq, Repr

/-- One in-flight api_scan request. -/
structure Thread where
  pid : Nat
  raw : String
  now : Nat
  pc : TPC
deriving DecidableEq, Repr

/-- One atomic step of a thread against the shared store. -/
def tstep (t : Thread) (db : DB) : Thread × DB :=
  match t.pc with
  | .lookup =>
    let scanned := pyStrip t.raw
    if scanned = "" then
      ({ t with pc := .finished ⟨.error, "No code detected", none⟩ }, db)
    else
      match findCode scanned db with
      | none => ({ t with pc := .finished ⟨.invalid, "Invalid code", none⟩ }, db)
      | some code_row =>
        if truthy code_row.used_by_player_id then
          ({ t with pc := .finished ⟨.used, "Already claimed!", none⟩ }, db)
        else ({ t with pc := .doClaim code_row.id }, db)
  | .doClaim cid => ({ t with pc := .doInsert cid }, updateCodes cid t.pid t.now db)
  | .doInsert cid => ({ t with pc := .doBump }, insertScan t.pid cid t.now db)
  | .doBump => ({ t with pc := .doRead }, bumpScore t.pid db)
  | .doRead =>
    ({ t with pc := .finished ⟨.ok, "You captured this code!", some (readScore t.pid db)⟩ }, db)
  | .finished _ => (t, db)

/-- Two concurrent requests plus the shared store. -/
structure Sys where
  t1 : Thread
  t2 : Thread
  db : DB
deriving DecidableEq, Repr

/-- Scheduler step: true steps thread 1, false steps thread 2. -/
def sysStep (choose1 : Bool) (s : Sys) : Sys :=
  if choose1 then
    let r := tstep s.t1 s.db
    ⟨r.1, s.t2, r.2⟩
  else
    let r := tstep s.t2 s.db
    ⟨s.t1, r.1, r.2⟩

/-- Run a finite schedule of interleaved steps. -/
def run2 (sched : List Bool) (s : Sys) : Sys :=
  sched.foldl (fun s c => sysStep c s) s

/-- Status a finished thread reported (error if still running). -/
def threadStatus (t : Thread) : Status :=
  match t.pc with
  | .finished r => r.status
  | _ => .error

/-- Sum of all player scores in the store. -/
def totalScore (db : DB) : Nat :=
  (db.players.map (fun p => p.score)).sum

/-- Claimant recorded on the first row of the codes table, if any. -/
def firstClaimant (db : DB) : Option Nat :=
  match db.codes with
  | [] => none
  | r :: _ => r.used_by_player_id

/-!
Bootstrap (init_db, CSV load).  The csv rows are modelled by the string
in their code field (empty string for a missing field); the source list
is consumed only when the codes table is empty.  The per-row insert uses
INSERT OR IGNORE / ON CONFLICT DO NOTHING: a row whose code already
exists is silently skipped.
-/

/-- The list comprehension of init_db: keep rows whose code field is
truthy and strips to something truthy, mapped to the stripped string. -/
def csvCodes (source : List String) : List String :=
  (source.filter (fun s => s ≠ "" && pyStrip s ≠ "")).map pyStrip

/-- Next SERIAL / AUTOINCREMENT id for the codes table. -/
def nextCodeId (db : DB) : Nat :=
  (db.codes.map (fun r => r.id)).foldl max 0 + 1

/-- INSERT OR IGNORE INTO codes (code) VALUES (?): appends a fresh
unclaimed row unless the code already exists. -/
def insertIgnore (db : DB) (c : String) : DB :=
  if db.codes.any (fun r => r.code = c) then db
  else { db with codes := db.codes ++ [⟨nextCodeId db, c, none, none⟩] }

/-- The CSV-load phase of init_db: only when SELECT COUNT(*) FROM codes
is 0 are the filtered, stripped candidates inserted one by one. -/
def bootstrap_codes (source : List String) (db : DB) : DB :=
  if db.codes.length = 0 then (csvCodes source).foldl insertIgnore db
  else db

/-!
Registration.  The insert of the new player row either succeeds or raises
one of the error kinds below; the source maps every one of them to the
Name-already-taken page (the Postgres branch catches bare Exception with
a condition that is always true, and the sqlite branch catches
IntegrityError inside a generic except Exception).
-/

/-- Error kinds the storage layer can raise during the INSERT. -/
inductive DbError where
  | constraintViolation
  | backendUnavailable
  | queryFailed
deriving DecidableEq, Repr

/-- Outcome of a POST /register request. -/
inductive RegisterOutcome where
  | redirectLogin
  | nameTaken
  | genericError
deriving DecidableEq, Repr

/-- The register handler, given whether the player INSERT raised
(none = success).  usePg selects the Postgres or the sqlite branch. -/
def register (usePg : Bool) (insertResult : Option DbError) : RegisterOutcome :=
  if usePg then
    match insertResult with
    | none => .redirectLogin
    | some _ => .nameTaken
  else
    match insertResult with
    | none => .redirectLogin
    | some .constraintViolation => .nameTaken
    | some _ => .nameTaken

/-!
Concrete fixtures used by the race, failure and witness theorems: two
registered players, one unclaimed code Y1, and two in-flight requests
submitting it.
-/

/-- Store with players P1, P2 (score 0) and the single unclaimed code Y1. -/
def raceDB : DB :=
  ⟨[⟨1, "P1", "h1", 0⟩, ⟨2, "P2", "h2", 0⟩], [⟨1, "Y1", none, none⟩], []⟩

/-- Both players submitting Y1 concurrently against raceDB. -/
def raceSys : Sys :=
  ⟨⟨1, "Y1", 100, .lookup⟩, ⟨2, "Y1", 200, .lookup⟩, raceDB⟩

/-- Schedule: both threads pass the lookup and claim-state check before
either writes; thread 1 then runs to completion, then thread 2. -/
def raceSched : List Bool :=
  [true, false, true, true, true, true, false, false, false, false]

/-- Store for the success-path witness: one player, one unclaimed code X1. -/
def okDB : DB :=
  ⟨[⟨1, "P1", "h1", 0⟩], [⟨1, "X1", none, none⟩], []⟩

/-- Bootstrap scenario source list. -/
def srcA : List String := ["A1", "A2", "A2", " "]

/-- Empty store (all three tables empty). -/
def emptyDB : DB := ⟨[], [], []⟩

/-- Store whose codes table is already non-empty. -/
def preloadedDB : DB := ⟨[], [⟨1, "B1", none, none⟩], []⟩

/-!
Theorems.  First some list lemmas about stripping, the score read-back,
and the duplicate-safe insert fold, then one theorem per claim.
-/

/-- A leading segment of a dropWhile-fixed list is itself dropWhile-fixed. -/
lemma dropWhile_eq_self_of_front {α : Type} {p : α → Bool} {m k : List α}
    (hpre : m <+: k) (hk : k.dropWhile p = k) : m.dropWhile p = m := by
  cases m with
  | nil => rfl
  | cons c t =>
    obtain ⟨s, hs⟩ := hpre
    have hc : ¬ (p c = true) := by
      intro hc
      rw [← hs, List.cons_append, List.dropWhile_cons_of_pos hc] at hk
      have hsub := (List.dropWhile_sublist (l := t ++ s) p).length_le
      have hlen := congrArg List.length hk
      simp [List.length_append] at hlen hsub
      omega
    exact List.dropWhile_cons_of_neg hc

/-- Python strip is idempotent on character lists. -/
lemma stripChars_idem (l : List Char) : stripChars (stripChars l) = stripChars l := by
  unfold stripChars
  rw [dropWhile_eq_self_of_front
        ( List.rdropWhile_prefix Char.isWhitespace (l.dropWhile Char.isWhitespace))
        (List.dropWhile_idempotent Char.isWhitespace l),
      List.rdropWhile_idempotent]

/-- Python strip is idempotent on strings. -/
lemma pyStrip_idem (s : String) : pyStrip (pyStrip s) = pyStrip s := by
  unfold pyStrip
  exact congrArg String.mk (stripChars_idem s.data)

/-- Claim C10: the scan endpoint strips the submitted code before lookup
and matches stored codes exactly: redeem(p, s) behaves as redeem(p,
strip(s)), and a non-empty stripped string matching no stored code yields
the invalid status with the store untouched. -/
theorem redeem_trim_exact_match (pid : Nat) (raw : String) (now : Nat) (db : DB) :
    api_scan pid raw now db = api_scan pid (pyStrip raw) now db
    ∧ (pyStrip raw ≠ "" →
        (∀ r ∈ db.codes, r.code ≠ pyStrip raw) →
        api_scan pid raw now db = (⟨.invalid, "Invalid code", none⟩, db)) := by
  constructor
  · unfold api_scan
    rw [pyStrip_idem]
  · intro hne hall
    unfold api_scan apiScanCore
    rw [if_neg hne]
    have hnone : findCode (pyStrip raw) db = none := by
      unfold findCode
      rw [List.find?_eq_none]
      intro r hr
      simpa using hall r hr
    rw [hnone]

/-- Witness for C10 at a concrete input: the submission " ZZZ " strips to
ZZZ, matches no code of raceDB, and the call returns invalid. -/
theorem redeem_trim_exact_match_witness :
    api_scan 3 " ZZZ " 0 raceDB = api_scan 3 (pyStrip " ZZZ ") 0 raceDB
    ∧ api_scan 3 " ZZZ " 0 raceDB = (⟨.invalid, "Invalid code", none⟩, raceDB) :=
  ⟨(redeem_trim_exact_match 3 " ZZZ " 0 raceDB).1,
   (redeem_trim_exact_match 3 " ZZZ " 0 raceDB).2 (by decide) (by decide)⟩

/-- Counterexample for C7: an all-whitespace submission is answered with
the error status itself, so the early rejection is not distinct from the
status reserved for backend failures. -/
theorem empty_code_returns_error_status :
    (api_scan 1 " " 0 raceDB).1.status = Status.error := by decide

/-- Claim C7 as amended: a submission that is empty after stripping is
rejected before any storage operation (the store is returned untouched),
but the rejection reuses the error status, with message No code detected,
rather than a distinct EmptyCode status. -/
theorem empty_code_early_return (pid : Nat) (raw : String) (now : Nat) (db : DB)
    (h : pyStrip raw = "") :
    api_scan pid raw now db = (⟨.error, "No code detected", none⟩, db) := by
  unfold api_scan apiScanCore
  rw [if_pos h]

/-- Witness for the amended C7 at a concrete input. -/
theorem empty_code_early_return_witness :
    api_scan 1 "  " 5 raceDB = (⟨.error, "No code detected", none⟩, raceDB) :=
  empty_code_early_return 1 "  " 5 raceDB (by decide)

/-- The score UPDATE commutes with the score SELECT: finding the player
row after the increment finds the incremented image of the row found
before it. -/
lemma find?_map_bump (pid : Nat) (l : List PlayerRow) :
    (l.map (fun p => if p.id = pid then { p with score := p.score + 1 } else p)).find?
        (fun p => p.id = pid)
    = (l.find? (fun p => p.id = pid)).map
        (fun p => if p.id = pid then { p with score := p.score + 1 } else p) := by
  induction l with
  | nil => rfl
  | cons a t ih =>
    by_cases h : a.id = pid
    · simp [List.find?_cons, h]
    · simp [List.find?_cons, h, ih]

/-- Reading the score back after the increment yields the old first
matching row score plus one (0 when no row matches). -/
lemma readScore_bumpScore (pid : Nat) (db : DB) :
    readScore pid (bumpScore pid db)
    = match db.players.find? (fun p => p.id = pid) with
      | some r => r.score + 1
      | none => 0 := by
  simp only [readScore, bumpScore, find?_map_bump]
  cases hf : db.players.find? (fun p => p.id = pid) with
  | none => rfl
  | some r =>
    have hr : r.id = pid := by simpa using List.find?_some hf
    simp [hr]

/-- Claim C6: when the stripped submission matches an unclaimed code and
the session player has a row, the call returns ok carrying exactly the
score read back after the increment, that read-back is one more than the
player score before the call, and the scans table gains exactly the one
row linking the player and the code. -/
theorem redeem_success_spec (pid : Nat) (raw : String) (now : Nat) (db : DB)
    (cr : CodeRow) (pr : PlayerRow)
    (hne : pyStrip raw ≠ "")
    (hfind : findCode (pyStrip raw) db = some cr)
    (hun : truthy cr.used_by_player_id = false)
    (hpr : db.players.find? (fun p => p.id = pid) = some pr) :
    (api_scan pid raw now db).1.status = .ok
    ∧ (api_scan pid raw now db).1.score
        = some (readScore pid (api_scan pid raw now db).2)
    ∧ readScore pid (api_scan pid raw now db).2 = pr.score + 1
    ∧ readScore pid db = pr.score
    ∧ (api_scan pid raw now db).2.scans = db.scans ++ [⟨pid, cr.id, now⟩] := by
  have hrun : api_scan pid raw now db
      = (⟨.ok, "You captured this code!",
           some (readScore pid
             (bumpScore pid (insertScan pid cr.id now (updateCodes cr.id pid now db))))⟩,
         bumpScore pid (insertScan pid cr.id now (updateCodes cr.id pid now db))) := by
    unfold api_scan apiScanCore
    rw [if_neg hne, hfind]
    dsimp only
    rw [if_neg (by simp [hun])]
  have hplayers : (insertScan pid cr.id now (updateCodes cr.id pid now db)).players
      = db.players := by
    simp [insertScan, updateCodes]
  have hread : readScore pid
      (bumpScore pid (insertScan pid cr.id now (updateCodes cr.id pid now db)))
      = pr.score + 1 := by
    rw [readScore_bumpScore, hplayers, hpr]
  refine ⟨?_, ?_, ?_, ?_, ?_⟩
  · rw [hrun]
  · rw [hrun]
  · rw [hrun]
    exact hread
  · simp [readScore, hpr]
  · rw [hrun]
    simp [bumpScore, insertScan, updateCodes]

/-- Witness for C6: player 1 redeems the unclaimed code X1 of okDB. -/
theorem redeem_success_spec_witness :
    (api_scan 1 " X1 " 7 okDB).1.status = .ok
    ∧ (api_scan 1 " X1 " 7 okDB).1.score
        = some (readScore 1 (api_scan 1 " X1 " 7 okDB).2)
    ∧ readScore 1 (api_scan 1 " X1 " 7 okDB).2 = 0 + 1
    ∧ readScore 1 okDB = 0
    ∧ (api_scan 1 " X1 " 7 okDB).2.scans = okDB.scans ++ [⟨1, 1, 7⟩] :=
  redeem_success_spec 1 " X1 " 7 okDB ⟨1, "X1", none, none⟩ ⟨1, "P1", "h1", 0⟩
    (by decide) (by decide) (by decide) (by decide)

/-- A code string is stored after the duplicate-safe insert fold exactly
when it was stored before or occurs in the inserted list. -/
lemma mem_foldl_insertIgnore (c : String) (l : List String) (db : DB) :
    c ∈ (l.foldl insertIgnore db).codes.map (fun r => r.code)
    ↔ (c ∈ db.codes.map (fun r => r.code) ∨ c ∈ l) := by
  induction l generalizing db with
  | nil => simp
  | cons a t ih =>
    rw [List.foldl_cons, ih]
    by_cases h : db.codes.any (fun r => r.code = a)
    · have ha : a ∈ db.codes.map (fun r => r.code) := by
        obtain ⟨r, hr, hra⟩ := List.any_eq_true.mp h
        exact List.mem_map.mpr ⟨r, hr, by simpa using hra⟩
      rw [insertIgnore, if_pos h]
      constructor
      · rintro (hm | hm)
        · exact Or.inl hm
        · exact Or.inr (List.mem_cons_of_mem a hm)
      · rintro (hm | hm)
        · exact Or.inl hm
        · rcases List.mem_cons.mp hm with hm | hm
          · exact Or.inl (hm ▸ ha)
          · exact Or.inr hm
    · rw [insertIgnore, if_neg h]
      simp only [List.map_append, List.mem_append, List.map_cons, List.map_nil,
        List.mem_singleton, List.mem_cons]
      tauto

/-- The duplicate-safe insert fold never stores the same code string
twice. -/
lemma nodup_foldl_insertIgnore (l : List String) (db : DB)
    (h : (db.codes.map (fun r => r.code)).Nodup) :
    ((l.foldl insertIgnore db).codes.map (fun r => r.code)).Nodup := by
  induction l generalizing db with
  | nil => simpa
  | cons a t ih =>
    rw [List.foldl_cons]
    apply ih
    by_cases hp : db.codes.any (fun r => r.code = a)
    · rwa [insertIgnore, if_pos hp]
    · rw [insertIgnore, if_neg hp]
      have hna : a ∉ db.codes.map (fun r => r.code) := by
        intro hmem
        obtain ⟨r, hr, hra⟩ := List.mem_map.mp hmem
        exact hp (List.any_eq_true.mpr ⟨r, hr, by simpa using hra⟩)
      simp only [List.map_append, List.map_cons, List.map_nil]
      rw [List.nodup_append]
      exact ⟨h, List.nodup_singleton a, by simpa [List.Disjoint] using hna⟩

/-- Claim C8: the CSV load runs only against an empty codes table (it is
a no-op otherwise, whatever the source holds), strips every candidate,
discards blanks, and inserts each surviving code exactly once, skipping
duplicates: starting from an empty table the stored code strings are
duplicate-free and are exactly the stripped non-blank candidates. -/
theorem bootstrap_codes_spec (source : List String) (db : DB) :
    (db.codes ≠ [] → bootstrap_codes source db = db)
    ∧ (db.codes = [] →
        (((bootstrap_codes source db).codes.map (fun r => r.code)).Nodup
        ∧ ∀ c : String,
            c ∈ (bootstrap_codes source db).codes.map (fun r => r.code)
            ↔ c ∈ csvCodes source)) := by
  constructor
  · intro h
    rw [bootstrap_codes, if_neg (by simpa [List.length_eq_zero] using h)]
  · intro h
    rw [bootstrap_codes, if_pos (by simp [h])]
    constructor
    · exact nodup_foldl_insertIgnore (csvCodes source) db (by simp [h])
    · intro c
      rw [mem_foldl_insertIgnore]
      simp [h]

/-- Witness for C8: scenario A source list against the empty store, and
the same source against a store whose codes table is non-empty. -/
theorem bootstrap_codes_spec_witness :
    bootstrap_codes srcA preloadedDB = preloadedDB
    ∧ ((bootstrap_codes srcA emptyDB).codes.map (fun r => r.code)).Nodup
    ∧ ("A1" ∈ (bootstrap_codes srcA emptyDB).codes.map (fun r => r.code)
        ↔ "A1" ∈ csvCodes srcA)
    ∧ (" " ∈ (bootstrap_codes srcA emptyDB).codes.map (fun r => r.code)
        ↔ " " ∈ csvCodes srcA) :=
  ⟨(bootstrap_codes_spec srcA preloadedDB).1 (by decide),
   ((bootstrap_codes_spec srcA emptyDB).2 (by decide)).1,
   ((bootstrap_codes_spec srcA emptyDB).2 (by decide)).2 "A1",
   ((bootstrap_codes_spec srcA emptyDB).2 (by decide)).2 " "⟩

/-- Claim C1 (code bug): the claim-record UPDATE matches on id only, not
on the record being unset.  After the prefix in which both threads pass
the claim-state check and thread 1 writes its claim, the record of Y1 is
set to player 1; the next pending step of thread 2 is exactly the
claim-record UPDATE, and executing it still takes effect, reassigning the
record to player 2 instead of leaving it and reporting used. -/
theorem claim_write_unconditional :
    (run2 [true, false, true] raceSys).t2.pc = TPC.doClaim 1
    ∧ truthy (firstClaimant (run2 [true, false, true] raceSys).db) = true
    ∧ firstClaimant (run2 [true, false, true] raceSys).db = some 1
    ∧ firstClaimant (run2 [true, false, true, false] raceSys).db = some 2 := by
  decide

/-- Claim C2 (code bug): the three writes commit on separate connections,
so they are not one atomic unit.  When the scans INSERT of redeem(P1, Y1)
raises after the claim UPDATE committed, the final store keeps the claim
record set while the scan row and the score increment are missing, and
the caller who just claimed the code is told used. -/
theorem partial_commit_not_atomic :
    (apiScanFail .atInsert 1 "Y1" 100 raceDB).2.codes
      = [⟨1, "Y1", some 1, some 100⟩]
    ∧ (apiScanFail .atInsert 1 "Y1" 100 raceDB).2 ≠ raceDB
    ∧ (apiScanFail .atInsert 1 "Y1" 100 raceDB).2.scans = raceDB.scans
    ∧ readScore 1 (apiScanFail .atInsert 1 "Y1" 100 raceDB).2 = readScore 1 raceDB
    ∧ (apiScanFail .atInsert 1 "Y1" 100 raceDB).1.status = .used := by
  decide

/-- Claim C3 (code bug): because each write commits separately, the store
reached right after the claim UPDATE of redeem(P1, Y1) — before the scans
INSERT — has the claim record of Y1 set while no scan row references the
code at all and player 1 still has score 0, violating the global
invariant in a reachable state. -/
theorem claimed_code_without_scan_or_credit :
    ((run2 [true, true] raceSys).db.codes.map (fun r => r.used_by_player_id))
      = [some 1]
    ∧ (run2 [true, true] raceSys).db.scans = []
    ∧ readScore 1 (run2 [true, true] raceSys).db = 0 := by
  decide

/-- Claim C4 (code bug): under the raceSched interleaving of two
redemptions of the unclaimed code Y1, both callers are answered ok and
the total score across the two players rises by 2, not 1. -/
theorem race_double_credit :
    threadStatus (run2 raceSched raceSys).t1 = .ok
    ∧ threadStatus (run2 raceSched raceSys).t2 = .ok
    ∧ totalScore (run2 raceSched raceSys).db = totalScore raceDB + 2 := by
  decide

/-- Claim C5 (code bug): along the raceSched interleaving the claim
record of Y1 is first set to player 1 and later overwritten to player 2,
so Claimed is not terminal and the record is reassigned by redeem
steps. -/
theorem claim_reassigned :
    firstClaimant (run2 [true, false, true] raceSys).db = some 1
    ∧ firstClaimant (run2 raceSched raceSys).db = some 2
    ∧ firstClaimant raceDB = none := by
  decide

/-- Claim C9 (code bug): the register handler answers Name already taken
for every storage error kind, in both backend branches; infrastructure
failures are not kept distinct from the uniqueness conflict. -/
theorem register_conflates_backend_error :
    register true (some .backendUnavailable) = .nameTaken
    ∧ register false (some .backendUnavailable) = .nameTaken
    ∧ register true (some .queryFailed) = .nameTaken
    ∧ register false (some .queryFailed) = .nameTaken
    ∧ register true (some .constraintViolation) = .nameTaken
    ∧ register false (some .constraintViolation) = .nameTaken := by
  decide

end BechDe
